import Mathlib

/-!
Verification of `src/task_2/main.py` (`DfProductCategories.get_all_products_categories`).

The Python function operates on PySpark DataFrames.  We embed a DataFrame as a
schema (list of column names) together with a list of rows, each row an
association list from column name to value.  The Spark primitives the function
uses — inner join on a named key, left-anti join, column projection,
`withColumn` with a null string literal, and `unionByName` — are embedded below
with eager analysis errors (Spark raises `AnalysisException` at the
transformation call when a referenced column is missing).

Python-level behaviour that matters here:
* line 37 of the source joins with the free variable `categories`, resolved in
  the module's global scope at call time, not with the `df_categories`
  parameter; we model the global binding as an explicit `Option DataFrame`
  argument (`none` = no global bound, so the name lookup raises `NameError`);
* the `try/except` block logs and re-raises `AnalysisException`, `ValueError`
  and any other exception; the `else:` block (the `unionByName` call) runs
  outside the `try`, so an error there would propagate without a log entry.
-/

/-- A cell value: integer, string, or SQL null. -/
inductive Value
  | vInt : Int → Value
  | vStr : String → Value
  | vNull : Value
  deriving DecidableEq

/-- SQL equality used for join keys: null never compares equal to anything. -/
def Value.eqKey : Value → Value → Bool
  | Value.vInt a, Value.vInt b => a == b
  | Value.vStr a, Value.vStr b => a == b
  | _, _ => false

/-- A row is an association list from column name to value. -/
abbrev Row := List (String × Value)

/-- Look a column up in a row; absent columns read as null. -/
def getVal (r : Row) (c : String) : Value :=
  match r.find? (fun p => p.1 == c) with
  | some p => p.2
  | none => Value.vNull

/-- A DataFrame: a schema (ordered column names) and a list of rows. -/
structure DataFrame where
  cols : List String
  rows : List Row
  deriving DecidableEq

/-- Python exceptions the function can surface. -/
inductive PyError
  | analysisException : String → PyError
  | nameError : String → PyError
  | valueError : String → PyError
  | otherError : String → PyError
  deriving DecidableEq

/-- `df1.join(other=df2, on=k, how="inner")`: requires `k` on both sides,
result schema is `k` followed by the remaining columns of both sides, rows are
all combinations whose key values compare equal (SQL semantics). -/
def innerJoin (df1 df2 : DataFrame) (k : String) : Except PyError DataFrame :=
  if !(df1.cols.contains k) then
    Except.error (PyError.analysisException ("missing column " ++ k ++ " on left side of join"))
  else if !(df2.cols.contains k) then
    Except.error (PyError.analysisException ("missing column " ++ k ++ " on right side of join"))
  else
    Except.ok
      { cols := k :: (df1.cols.erase k ++ df2.cols.erase k),
        rows := df1.rows.flatMap (fun r1 =>
          df2.rows.filterMap (fun r2 =>
            if (getVal r1 k).eqKey (getVal r2 k) then
              some ((k, getVal r1 k) ::
                ((df1.cols.erase k).map (fun c => (c, getVal r1 c)) ++
                 (df2.cols.erase k).map (fun c => (c, getVal r2 c))))
            else none)) }

/-- `df1.join(other=df2, on=k, how="left_anti")`: rows of `df1` whose key has
no match in `df2`; schema is that of `df1`. -/
def leftAntiJoin (df1 df2 : DataFrame) (k : String) : Except PyError DataFrame :=
  if !(df1.cols.contains k) then
    Except.error (PyError.analysisException ("missing column " ++ k ++ " on left side of join"))
  else if !(df2.cols.contains k) then
    Except.error (PyError.analysisException ("missing column " ++ k ++ " on right side of join"))
  else
    Except.ok
      { cols := df1.cols,
        rows := df1.rows.filter (fun r1 =>
          !(df2.rows.any (fun r2 => (getVal r1 k).eqKey (getVal r2 k)))) }

/-- `df.select(cs)`: project to the named columns, which must all exist. -/
def select (df : DataFrame) (cs : List String) : Except PyError DataFrame :=
  if cs.all (fun c => df.cols.contains c) then
    Except.ok { cols := cs, rows := df.rows.map (fun r => cs.map (fun c => (c, getVal r c))) }
  else
    Except.error (PyError.analysisException "missing column in select")

/-- `df.withColumn(c, lit(None).cast("string"))`: append (or overwrite) a
column holding null in every row. -/
def withColumnNull (df : DataFrame) (c : String) : DataFrame :=
  if df.cols.contains c then
    { cols := df.cols,
      rows := df.rows.map (fun r => r.map (fun p => if p.1 == c then (p.1, Value.vNull) else p)) }
  else
    { cols := df.cols ++ [c],
      rows := df.rows.map (fun r => r ++ [(c, Value.vNull)]) }

/-- `df1.unionByName(df2)`: both schemas must contain the same column names;
rows of `df2` are realigned to `df1`'s column order. -/
def unionByName (df1 df2 : DataFrame) : Except PyError DataFrame :=
  if df1.cols.all (fun c => df2.cols.contains c) && df2.cols.all (fun c => df1.cols.contains c) then
    Except.ok
      { cols := df1.cols,
        rows := df1.rows ++ df2.rows.map (fun r => df1.cols.map (fun c => (c, getVal r c))) }
  else
    Except.error (PyError.analysisException "unionByName: column sets differ")

/-- The first assignment inside the `try` block: join `df_products` with
`df_product_categories` on `product_id`, then join with the free variable
`categories` (the module global, `none` when unbound — the lookup happens after
the first join has been evaluated), then select the two name columns. -/
def prod_cat_pairs (globalCategories : Option DataFrame)
    (df_products df_product_categories : DataFrame) : Except PyError DataFrame := do
  let j1 ← innerJoin df_products df_product_categories "product_id"
  let cats ← match globalCategories with
    | some c => Except.ok c
    | none => Except.error (PyError.nameError "name: categories is not defined")
  let j2 ← innerJoin j1 cats "category_id"
  select j2 ["product_name", "category_name"]

/-- The second assignment inside the `try` block: anti-join `df_products`
against `df_product_categories` on `product_id`, keep `product_name`, append a
null `category_name`. -/
def orphans (df_products df_product_categories : DataFrame) : Except PyError DataFrame := do
  let a1 ← leftAntiJoin df_products df_product_categories "product_id"
  let s1 ← select a1 ["product_name"]
  Except.ok (withColumnNull s1 "category_name")

/-- The log line each `except` clause emits before re-raising. -/
def logMessage : PyError → String
  | PyError.analysisException m => "Oshibka analitiki Spark: " ++ m
  | PyError.valueError m => "Peredany nekorrektnye dannye: " ++ m
  | PyError.nameError m => "Neozhidannaia oshibka: " ++ m
  | PyError.otherError m => "Neozhidannaia oshibka: " ++ m

/-- `DfProductCategories.get_all_products_categories`: runs the `try` body
(both assignments), logging and re-raising any error; on success the `else:`
block returns `prod_cat_pairs.unionByName(orphans)` outside the `try`, so an
error there is raised without a log entry.  Returns the Python result together
with the list of emitted log lines.  `df_categories` is accepted but never
read: the source joins with the global `categories` instead. -/
def get_all_products_categories (globalCategories : Option DataFrame)
    (df_products df_categories df_product_categories : DataFrame) :
    Except PyError DataFrame × List String :=
  match (do
      let p ← prod_cat_pairs globalCategories df_products df_product_categories
      let o ← orphans df_products df_product_categories
      Except.ok (p, o) : Except PyError (DataFrame × DataFrame)) with
  | Except.error e => (Except.error e, [logMessage e])
  | Except.ok (p, o) =>
      match unionByName p o with
      | Except.ok res => (Except.ok res, [])
      | Except.error e => (Except.error e, [])

/-! ### Spec-side relational definitions

These follow the wording of the specification (§4, Algorithm): the claim
theorems compare the embedded code against them. -/

/-- Spec wording for the matched-pairs relation: inner join of the product
rows with the link rows on `product_id`, then inner join with the category
rows on `category_id`, projected to `(product_name, category_name)` — one row
per (product, link, resolved category) combination. -/
def specMatchedPairs (prows lrows crows : List Row) : List Row :=
  prows.flatMap (fun r =>
    (lrows.filter (fun l => (getVal r "product_id").eqKey (getVal l "product_id"))).flatMap (fun l =>
      (crows.filter (fun c => (getVal l "category_id").eqKey (getVal c "category_id"))).map (fun c =>
        [("product_name", getVal r "product_name"), ("category_name", getVal c "category_name")])))

/-- Spec wording for the orphans relation: the product rows whose `product_id`
has no match in the link rows, projected to `product_name` with a null
`category_name` appended. -/
def specOrphans (prows lrows : List Row) : List Row :=
  (prows.filter (fun r =>
    !(lrows.any (fun l => (getVal r "product_id").eqKey (getVal l "product_id"))))).map (fun r =>
      [("product_name", getVal r "product_name"), ("category_name", Value.vNull)])

/-! ### Evaluation lemmas -/

lemma filterMap_ite {α β : Type} (p : α → Bool) (f : α → β) (l : List α) :
    l.filterMap (fun a => if p a then some (f a) else none) = (l.filter p).map f := by
  induction l with
  | nil => rfl
  | cons a l ih =>
    by_cases h : p a <;> simp [List.filterMap_cons, List.filter_cons, h, ih]

lemma getVal_cons (c : String) (v : Value) (r : Row) (d : String) :
    getVal ((c, v) :: r) d = if (c == d) then v else getVal r d := by
  unfold getVal
  rw [List.find?_cons]
  by_cases h : (c == d) <;> simp [h]

/-- On inputs with the documented schemas and the module global `categories`
bound, the first `try`-block assignment succeeds and produces exactly the
spec's matched-pairs relation. -/
lemma prod_cat_pairs_eval (dfp dfpc cats : DataFrame)
    (hp : dfp.cols = ["product_id", "product_name"])
    (hl : dfpc.cols = ["product_id", "category_id"])
    (hc : cats.cols = ["category_id", "category_name"]) :
    prod_cat_pairs (some cats) dfp dfpc =
      Except.ok ⟨["product_name", "category_name"],
        specMatchedPairs dfp.rows dfpc.rows cats.rows⟩ := by
  simp [prod_cat_pairs, innerJoin, select, specMatchedPairs, hp, hl, hc, Bind.bind, Except.bind,
    filterMap_ite, List.flatMap_assoc, List.map_flatMap, List.flatMap_map, List.map_map,
    Function.comp_def, getVal_cons]

/-- On inputs with the documented schemas, the second `try`-block assignment
succeeds and produces exactly the spec's orphans relation. -/
lemma orphans_eval (dfp dfpc : DataFrame)
    (hp : dfp.cols = ["product_id", "product_name"])
    (hl : dfpc.cols = ["product_id", "category_id"]) :
    orphans dfp dfpc =
      Except.ok ⟨["product_name", "category_name"], specOrphans dfp.rows dfpc.rows⟩ := by
  simp [orphans, leftAntiJoin, select, withColumnNull, specOrphans, hp, hl, Bind.bind, Except.bind,
    List.map_map, Function.comp_def, getVal_cons]

/-- On inputs with the documented schemas and the module global `categories`
bound, the whole call succeeds with no log output and returns the
concatenation of the spec's matched pairs and orphans. -/
lemma get_all_eval (dfp dfc dfpc cats : DataFrame)
    (hp : dfp.cols = ["product_id", "product_name"])
    (hl : dfpc.cols = ["product_id", "category_id"])
    (hc : cats.cols = ["category_id", "category_name"]) :
    get_all_products_categories (some cats) dfp dfc dfpc =
      (Except.ok ⟨["product_name", "category_name"],
        specMatchedPairs dfp.rows dfpc.rows cats.rows ++ specOrphans dfp.rows dfpc.rows⟩, []) := by
  simp [get_all_products_categories, prod_cat_pairs_eval dfp dfpc cats hp hl hc,
    orphans_eval dfp dfpc hp hl, unionByName, Bind.bind, Except.bind, specOrphans,
    List.map_map, Function.comp_def, getVal_cons]

/-! ### Concrete relations used as witnesses and counterexamples -/

/-- Products: (1, Pen), (2, Mug). -/
def productsEx : DataFrame :=
  ⟨["product_id", "product_name"],
   [[("product_id", Value.vInt 1), ("product_name", Value.vStr "Pen")],
    [("product_id", Value.vInt 2), ("product_name", Value.vStr "Mug")]]⟩

/-- Products: (1, Pen) only. -/
def productsPen : DataFrame :=
  ⟨["product_id", "product_name"],
   [[("product_id", Value.vInt 1), ("product_name", Value.vStr "Pen")]]⟩

/-- A products relation with no columns at all. -/
def productsNoCols : DataFrame := ⟨[], []⟩

/-- Categories: (10, Office). -/
def categoriesEx : DataFrame :=
  ⟨["category_id", "category_name"],
   [[("category_id", Value.vInt 10), ("category_name", Value.vStr "Office")]]⟩

/-- A categories relation with the right schema and no rows. -/
def categoriesEmpty : DataFrame := ⟨["category_id", "category_name"], []⟩

/-- A categories relation with no columns at all. -/
def categoriesNoCols : DataFrame := ⟨[], []⟩

/-- Links: (1, 10). -/
def linksEx : DataFrame :=
  ⟨["product_id", "category_id"],
   [[("product_id", Value.vInt 1), ("category_id", Value.vInt 10)]]⟩

/-- Links: (1, 11) — category 11 exists nowhere. -/
def linksDangling : DataFrame :=
  ⟨["product_id", "category_id"],
   [[("product_id", Value.vInt 1), ("category_id", Value.vInt 11)]]⟩

deriving instance DecidableEq for Except

/-! ### Counting helpers -/

lemma eq_of_countP_eq_one {α : Type} (p : α → Bool) (l : List α) (h1 : l.countP p = 1)
    (r : α) (hr : r ∈ l) (hp : p r = true) :
    ∀ a ∈ l, p a = true → a = r := by
  induction l with
  | nil => simp at hr
  | cons x t ih =>
    rw [List.countP_cons] at h1
    by_cases hx : p x = true
    · rw [if_pos hx] at h1
      have ht : t.countP p = 0 := by omega
      have hnone : ∀ b ∈ t, ¬ p b = true := List.countP_eq_zero.mp ht
      have hrx : r = x := by
        rcases List.mem_cons.mp hr with h | hr2
        · exact h
        · exact absurd hp (hnone r hr2)
      intro a ha hpa
      rcases List.mem_cons.mp ha with h | ha2
      · rw [h, hrx]
      · exact absurd hpa (hnone a ha2)
    · rw [if_neg hx] at h1
      have hrt : r ∈ t := by
        rcases List.mem_cons.mp hr with h | hr2
        · rw [h] at hp; exact absurd hp hx
        · exact hr2
      intro a ha hpa
      rcases List.mem_cons.mp ha with h | ha2
      · rw [h] at hpa; exact absurd hpa hx
      · exact ih (by omega) hrt a ha2 hpa

lemma sum_map_ite_of_countP_one {α : Type} (p : α → Bool) (f : α → Nat) (l : List α)
    (h1 : l.countP p = 1) (r : α) (hr : r ∈ l) (hp : p r = true) :
    (l.map (fun a => if p a then f a else 0)).sum = f r := by
  induction l with
  | nil => simp at hr
  | cons x t ih =>
    rw [List.countP_cons] at h1
    by_cases hx : p x = true
    · rw [if_pos hx] at h1
      have ht : t.countP p = 0 := by omega
      have hnone : ∀ b ∈ t, ¬ p b = true := List.countP_eq_zero.mp ht
      have hrx : r = x := by
        rcases List.mem_cons.mp hr with h | hr2
        · exact h
        · exact absurd hp (hnone r hr2)
      have htz : (t.map (fun a => if p a then f a else 0)).sum = 0 := by
        apply List.sum_eq_zero
        intro y hy
        rcases List.mem_map.mp hy with ⟨b, hb, hby⟩
        rw [if_neg (hnone b hb)] at hby
        exact hby.symm
      simp [hx, htz, hrx]
    · rw [if_neg hx] at h1
      have hrt : r ∈ t := by
        rcases List.mem_cons.mp hr with h | hr2
        · rw [h] at hp; exact absurd hp hx
        · exact hr2
      simp [hx, ih (by omega) hrt]

lemma countP_le_one_of_pairwise {α : Type} (p : α → Bool) (l : List α)
    (h : l.Pairwise (fun a b => ¬(p a = true ∧ p b = true))) :
    l.countP p ≤ 1 := by
  induction l with
  | nil => simp
  | cons x t ih =>
    rw [List.pairwise_cons] at h
    rw [List.countP_cons]
    by_cases hx : p x = true
    · have ht : t.countP p = 0 := by
        apply List.countP_eq_zero.mpr
        intro b hb hpb
        exact h.1 b hb ⟨hx, hpb⟩
      simp [hx, ht]
    · simp [hx, ih h.2]

lemma length_filter_of_countP_le_one {α : Type} (p : α → Bool) (l : List α)
    (h : l.countP p ≤ 1) :
    (l.filter p).length = if l.any p then 1 else 0 := by
  rw [← List.countP_eq_length_filter]
  by_cases ha : l.any p = true
  · rcases List.any_eq_true.mp ha with ⟨a, hal, hpa⟩
    have hpos : 0 < l.countP p := List.countP_pos_iff.mpr ⟨a, hal, hpa⟩
    rw [if_pos ha]
    omega
  · rw [if_neg ha]
    apply List.countP_eq_zero.mpr
    intro b hb hpb
    exact ha (List.any_eq_true.mpr ⟨b, hb, hpb⟩)

lemma countP_eq_sum_map {α : Type} (p : α → Bool) (l : List α) :
    l.countP p = (l.map (fun a => if p a then 1 else 0)).sum := by
  induction l with
  | nil => rfl
  | cons x t ih => rw [List.countP_cons, List.map_cons, List.sum_cons, ih]; omega

/-- If two values both key-compare equal to `v`, they key-compare equal to
each other. -/
lemma Value.eqKey_right_unique {v a b : Value} (h1 : v.eqKey a = true)
    (h2 : v.eqKey b = true) : a.eqKey b = true := by
  cases v <;> cases a <;> cases b <;> simp_all [Value.eqKey]

/-! ### Claim theorems -/

/-- **C1** (refuted — code bug): the claim says the matched-pairs sub-result
joins with the `df_categories` *input*.  The code instead joins with the
module-global `categories`.  At the concrete call below the `df_categories`
argument is `{(10, Office)}` while the module global is an empty categories
relation: the products row (1, Pen) and the link (1, 10) are supplied, every
orphan is ruled out, yet the call returns no rows at all — whereas the claim's
join against the `df_categories` input would return the single row
(Pen, Office), as the second conjunct computes. -/
theorem C1_code_joins_global_not_argument :
    (get_all_products_categories (some categoriesEmpty) productsPen categoriesEx linksEx).1 =
      Except.ok ⟨["product_name", "category_name"], []⟩ ∧
    specMatchedPairs productsPen.rows linksEx.rows categoriesEx.rows =
      [[("product_name", Value.vStr "Pen"), ("category_name", Value.vStr "Office")]] := by
  decide

/-- **C2** (confirmed): on inputs exposing the documented schemas, the orphans
sub-result is exactly the anti-join of `df_products` against
`df_product_categories` on `product_id` (keeping precisely the product rows
whose `product_id` matches no link row), projected to `product_name` with a
null `category_name` column appended to every row. -/
theorem C2_orphans_is_anti_join (dfp dfpc : DataFrame)
    (hp : dfp.cols = ["product_id", "product_name"])
    (hl : dfpc.cols = ["product_id", "category_id"]) :
    orphans dfp dfpc =
      Except.ok ⟨["product_name", "category_name"], specOrphans dfp.rows dfpc.rows⟩ :=
  orphans_eval dfp dfpc hp hl

/-- Witness for C2 at the concrete relations (Pen linked, Mug orphan). -/
theorem C2_witness :
    orphans productsEx linksEx =
      Except.ok ⟨["product_name", "category_name"], specOrphans productsEx.rows linksEx.rows⟩ :=
  C2_orphans_is_anti_join productsEx linksEx rfl rfl

/-- **C3** (confirmed): when both sub-results are produced, the output is
their plain concatenation — all rows of the matched pairs followed by all rows
of the orphans, no deduplication — so its row count is exactly the sum of the
two row counts, and the schema is `(product_name, category_name)`. -/
theorem C3_output_is_union_all (dfp dfc dfpc cats : DataFrame)
    (hp : dfp.cols = ["product_id", "product_name"])
    (hl : dfpc.cols = ["product_id", "category_id"])
    (hc : cats.cols = ["category_id", "category_name"]) :
    ∃ P O res : DataFrame,
      prod_cat_pairs (some cats) dfp dfpc = Except.ok P ∧
      orphans dfp dfpc = Except.ok O ∧
      (get_all_products_categories (some cats) dfp dfc dfpc).1 = Except.ok res ∧
      res.cols = ["product_name", "category_name"] ∧
      res.rows = P.rows ++ O.rows ∧
      res.rows.length = P.rows.length + O.rows.length := by
  refine ⟨⟨["product_name", "category_name"], specMatchedPairs dfp.rows dfpc.rows cats.rows⟩,
    ⟨["product_name", "category_name"], specOrphans dfp.rows dfpc.rows⟩,
    ⟨["product_name", "category_name"],
      specMatchedPairs dfp.rows dfpc.rows cats.rows ++ specOrphans dfp.rows dfpc.rows⟩,
    prod_cat_pairs_eval dfp dfpc cats hp hl hc, orphans_eval dfp dfpc hp hl,
    ?_, rfl, rfl, List.length_append _ _⟩
  rw [get_all_eval dfp dfc dfpc cats hp hl hc]

/-- Witness for C3 at the concrete relations. -/
theorem C3_witness :
    ∃ P O res : DataFrame,
      prod_cat_pairs (some categoriesEx) productsEx linksEx = Except.ok P ∧
      orphans productsEx linksEx = Except.ok O ∧
      (get_all_products_categories (some categoriesEx) productsEx categoriesEx linksEx).1 =
        Except.ok res ∧
      res.cols = ["product_name", "category_name"] ∧
      res.rows = P.rows ++ O.rows ∧
      res.rows.length = P.rows.length + O.rows.length :=
  C3_output_is_union_all productsEx categoriesEx linksEx categoriesEx rfl rfl rfl

/-- **C8** (refuted — code bug): the output is not a pure function of the
three arguments.  Two calls below receive identical `df_products`,
`df_categories` and `df_product_categories`; only the module-global
`categories` binding differs, and the results differ. -/
theorem C8_output_depends_on_module_global :
    get_all_products_categories (some categoriesEx) productsEx categoriesEx linksEx ≠
    get_all_products_categories (some categoriesEmpty) productsEx categoriesEx linksEx := by
  decide

/-- Discriminator: is this exception a Python `NameError`? -/
def PyError.isNameError : PyError → Bool
  | PyError.nameError _ => true
  | _ => false

/-- **C9** (counterexample): the claim says a required column missing from
*any* of the three inputs aborts the call with no output.  Here the
`df_categories` argument has no columns at all — neither `category_id` nor
`category_name` — yet the call succeeds, returns a two-row output and logs
nothing, because the parameter is never read (the global is used instead). -/
theorem C9_counterexample_missing_categories_columns :
    get_all_products_categories (some categoriesEx) productsEx categoriesNoCols linksEx =
      (Except.ok ⟨["product_name", "category_name"],
        [[("product_name", Value.vStr "Pen"), ("category_name", Value.vStr "Office")],
         [("product_name", Value.vStr "Mug"), ("category_name", Value.vNull)]]⟩, []) := by
  decide

/-- **C9** (amended): whenever either `try`-block assignment fails — in
particular on a required column missing from `df_products` or
`df_product_categories` — the call produces no output relation, emits exactly
one log entry, performs no retry, and re-raises the original exception
unchanged; a missing column on `df_categories` alone is not detected because
that parameter is unused. -/
theorem C9_failure_logged_and_reraised (g : Option DataFrame)
    (dfp dfc dfpc : DataFrame) (e : PyError)
    (h : prod_cat_pairs g dfp dfpc = Except.error e ∨
         ((∃ p, prod_cat_pairs g dfp dfpc = Except.ok p) ∧
          orphans dfp dfpc = Except.error e)) :
    get_all_products_categories g dfp dfc dfpc = (Except.error e, [logMessage e]) := by
  unfold get_all_products_categories
  rcases h with h | ⟨⟨p, hp⟩, ho⟩
  · rw [h]; rfl
  · rw [hp, ho]; rfl

/-- Witness for C9: `df_products` lacking `product_id` makes the first join
fail; the error is logged once and re-raised unchanged. -/
theorem C9_witness :
    get_all_products_categories (some categoriesEx) productsNoCols categoriesEx linksEx =
      (Except.error (PyError.analysisException "missing column product_id on left side of join"),
       [logMessage (PyError.analysisException "missing column product_id on left side of join")]) :=
  C9_failure_logged_and_reraised (some categoriesEx) productsNoCols categoriesEx linksEx
    (PyError.analysisException "missing column product_id on left side of join")
    (Or.inl (by decide))

/-- **C10** (counterexample): the claim says an unbound module-global
`categories` makes the call raise `NameError` *regardless of the inputs*.
But the first join is evaluated before the name lookup: with `df_products`
lacking `product_id` the call raises `AnalysisException`, not `NameError`. -/
theorem C10_counterexample_analysis_error_first :
    (get_all_products_categories none productsNoCols categoriesEx linksEx).1 =
      Except.error (PyError.analysisException "missing column product_id on left side of join") ∧
    (match (get_all_products_categories none productsNoCols categoriesEx linksEx).1 with
     | Except.error e => PyError.isNameError e
     | Except.ok _ => true) = false := by
  decide

/-- **C10** (amended): the result never depends on the `df_categories`
argument — two calls differing only there are identical — and when no
module-global `categories` is bound, any call whose inputs let the first join
succeed (both frames expose `product_id`) raises `NameError`. -/
theorem C10_df_categories_never_read (g : Option DataFrame)
    (dfp dfc1 dfc2 dfpc : DataFrame)
    (h1 : dfp.cols.contains "product_id" = true)
    (h2 : dfpc.cols.contains "product_id" = true) :
    get_all_products_categories g dfp dfc1 dfpc = get_all_products_categories g dfp dfc2 dfpc ∧
    (get_all_products_categories none dfp dfc1 dfpc).1 =
      Except.error (PyError.nameError "name: categories is not defined") := by
  refine ⟨rfl, ?_⟩
  simp at h1 h2
  simp [get_all_products_categories, prod_cat_pairs, innerJoin, h1, h2, Bind.bind, Except.bind]

/-- Witness for C10 at concrete inputs: the `df_categories` argument differs
(full vs. empty relation) with no effect, and the unbound-global call raises
`NameError`. -/
theorem C10_witness :
    get_all_products_categories (some categoriesEx) productsEx categoriesEx linksEx =
      get_all_products_categories (some categoriesEx) productsEx categoriesEmpty linksEx ∧
    (get_all_products_categories none productsEx categoriesEx linksEx).1 =
      Except.error (PyError.nameError "name: categories is not defined") :=
  C10_df_categories_never_read (some categoriesEx) productsEx categoriesEx categoriesEmpty linksEx
    (by decide) (by decide)

/-- **C4** (counterexample): products (1, Pen) and (2, Mug); Pen's only link
row points to category 11, which does not exist in the categories relation.
Pen is then neither a matched pair (the second inner join fails) nor an orphan
(it does have a link row): the output holds a single row, for Mug, and Pen —
though present in `products` — appears nowhere, refuting "no product is ever
dropped". -/
theorem C4_counterexample_dangling_link_drops_product :
    [("product_id", Value.vInt 1), ("product_name", Value.vStr "Pen")] ∈ productsEx.rows ∧
    (get_all_products_categories (some categoriesEx) productsEx categoriesEx linksDangling).1 =
      Except.ok ⟨["product_name", "category_name"],
        [[("product_name", Value.vStr "Mug"), ("category_name", Value.vNull)]]⟩ ∧
    (getVal [("product_name", Value.vStr "Mug"), ("category_name", Value.vNull)] "product_name" ==
      getVal [("product_id", Value.vInt 1), ("product_name", Value.vStr "Pen")] "product_name")
      = false := by
  decide

/-- **C4** (amended): a product row appears at least once in the output
provided it has no link row at all (orphan branch) or at least one of its link
rows resolves to a category present in the (global) categories relation
(matched branch).  A product whose every link row references an absent
category id is dropped. -/
theorem C4_product_present_unless_all_links_dangle (dfp dfc dfpc cats : DataFrame)
    (hp : dfp.cols = ["product_id", "product_name"])
    (hl : dfpc.cols = ["product_id", "category_id"])
    (hc : cats.cols = ["category_id", "category_name"])
    (r : Row) (hr : r ∈ dfp.rows)
    (hok : (∀ l ∈ dfpc.rows, (getVal r "product_id").eqKey (getVal l "product_id") = false) ∨
           (∃ l ∈ dfpc.rows, (getVal r "product_id").eqKey (getVal l "product_id") = true ∧
             ∃ c ∈ cats.rows, (getVal l "category_id").eqKey (getVal c "category_id") = true)) :
    ∃ res : DataFrame,
      (get_all_products_categories (some cats) dfp dfc dfpc).1 = Except.ok res ∧
      ∃ row ∈ res.rows, getVal row "product_name" = getVal r "product_name" := by
  refine ⟨⟨["product_name", "category_name"],
    specMatchedPairs dfp.rows dfpc.rows cats.rows ++ specOrphans dfp.rows dfpc.rows⟩,
    by rw [get_all_eval dfp dfc dfpc cats hp hl hc], ?_⟩
  rcases hok with hnone | ⟨l, hlmem, hlk, c, hcmem, hck⟩
  · refine ⟨[("product_name", getVal r "product_name"), ("category_name", Value.vNull)],
      List.mem_append.mpr (Or.inr ?_), by simp [getVal_cons]⟩
    unfold specOrphans
    refine List.mem_map.mpr ⟨r, List.mem_filter.mpr ⟨hr, ?_⟩, rfl⟩
    have hany : (dfpc.rows.any fun l => (getVal r "product_id").eqKey (getVal l "product_id"))
        = false := by
      apply List.any_eq_false.mpr
      intro l hl2
      simp [hnone l hl2]
    simp [hany]
  · refine ⟨[("product_name", getVal r "product_name"), ("category_name", getVal c "category_name")],
      List.mem_append.mpr (Or.inl ?_), by simp [getVal_cons]⟩
    unfold specMatchedPairs
    exact List.mem_flatMap.mpr ⟨r, hr, List.mem_flatMap.mpr ⟨l, List.mem_filter.mpr ⟨hlmem, hlk⟩,
      List.mem_map.mpr ⟨c, List.mem_filter.mpr ⟨hcmem, hck⟩, rfl⟩⟩⟩

/-- Witness for C4 at the concrete relations: Pen has a link resolving to
Office, so Pen's name appears in the output. -/
theorem C4_witness :
    ∃ res : DataFrame,
      (get_all_products_categories (some categoriesEx) productsEx categoriesEx linksEx).1 =
        Except.ok res ∧
      ∃ row ∈ res.rows, getVal row "product_name" =
        getVal [("product_id", Value.vInt 1), ("product_name", Value.vStr "Pen")] "product_name" :=
  C4_product_present_unless_all_links_dangle productsEx categoriesEx linksEx categoriesEx
    rfl rfl rfl _ (by decide) (Or.inr (by decide))

/-- **C7** (confirmed): on valid inputs — documented schemas, and category
names that are actual strings (non-null) — the output is the concatenation of
the matched-pairs rows and the orphan rows, every matched-pair row carries a
non-null `category_name`, and every orphan row carries a null `category_name`:
the two blocks partition the output and a row is an orphan exactly when its
`category_name` is null. -/
theorem C7_orphans_are_exactly_null_rows (dfp dfc dfpc cats : DataFrame)
    (hp : dfp.cols = ["product_id", "product_name"])
    (hl : dfpc.cols = ["product_id", "category_id"])
    (hc : cats.cols = ["category_id", "category_name"])
    (hnn : ∀ c ∈ cats.rows, getVal c "category_name" ≠ Value.vNull) :
    ∃ res : DataFrame,
      (get_all_products_categories (some cats) dfp dfc dfpc).1 = Except.ok res ∧
      res.rows = specMatchedPairs dfp.rows dfpc.rows cats.rows ++
        specOrphans dfp.rows dfpc.rows ∧
      (∀ row ∈ specMatchedPairs dfp.rows dfpc.rows cats.rows,
        getVal row "category_name" ≠ Value.vNull) ∧
      (∀ row ∈ specOrphans dfp.rows dfpc.rows, getVal row "category_name" = Value.vNull) := by
  refine ⟨⟨["product_name", "category_name"],
    specMatchedPairs dfp.rows dfpc.rows cats.rows ++ specOrphans dfp.rows dfpc.rows⟩,
    by rw [get_all_eval dfp dfc dfpc cats hp hl hc], rfl, ?_, ?_⟩
  · intro row hrow
    unfold specMatchedPairs at hrow
    rcases List.mem_flatMap.mp hrow with ⟨r, hr, hrow2⟩
    rcases List.mem_flatMap.mp hrow2 with ⟨l, hlm, hrow3⟩
    rcases List.mem_map.mp hrow3 with ⟨c, hcm, hrow4⟩
    rcases List.mem_filter.mp hcm with ⟨hcmem, hck⟩
    rw [← hrow4]
    simpa [getVal_cons] using hnn c hcmem
  · intro row hrow
    unfold specOrphans at hrow
    rcases List.mem_map.mp hrow with ⟨r, hrm, hrow2⟩
    rw [← hrow2]
    simp [getVal_cons]

/-- Witness for C7 at the concrete relations. -/
theorem C7_witness :
    ∃ res : DataFrame,
      (get_all_products_categories (some categoriesEx) productsEx categoriesEx linksEx).1 =
        Except.ok res ∧
      res.rows = specMatchedPairs productsEx.rows linksEx.rows categoriesEx.rows ++
        specOrphans productsEx.rows linksEx.rows ∧
      (∀ row ∈ specMatchedPairs productsEx.rows linksEx.rows categoriesEx.rows,
        getVal row "category_name" ≠ Value.vNull) ∧
      (∀ row ∈ specOrphans productsEx.rows linksEx.rows,
        getVal row "category_name" = Value.vNull) :=
  C7_orphans_are_exactly_null_rows productsEx categoriesEx linksEx categoriesEx
    rfl rfl rfl (by decide)

lemma countP_fun_const {α : Type} (b : Bool) (l : List α) :
    l.countP (fun _ => b) = if b then l.length else 0 := by
  cases b <;> simp [List.countP_eq_length_filter]

lemma sum_map_ite_const {α : Type} (b : Bool) (f : α → Nat) (l : List α) :
    (l.map (fun a => if b then f a else 0)).sum = if b then (l.map f).sum else 0 := by
  cases b <;> simp

/-- How often a given product name occurs among the orphan rows: once per
product row carrying that name and matching no link row. -/
lemma countP_specOrphans (prows lrows : List Row) (nm : Value) :
    (specOrphans prows lrows).countP (fun row => getVal row "product_name" == nm) =
      prows.countP (fun r => (getVal r "product_name" == nm) &&
        !(lrows.any (fun l => (getVal r "product_id").eqKey (getVal l "product_id")))) := by
  unfold specOrphans
  rw [List.countP_map, List.countP_filter]
  apply List.countP_congr
  intro r _
  simp [Function.comp_def, getVal_cons]

/-- How often a given product name occurs among the matched-pair rows: for
each product row carrying that name, one row per (matching link, matching
category) combination. -/
lemma countP_specMatchedPairs (prows lrows crows : List Row) (nm : Value) :
    (specMatchedPairs prows lrows crows).countP
        (fun row => getVal row "product_name" == nm) =
      (prows.map (fun r =>
        if getVal r "product_name" == nm then
          ((lrows.filter (fun l =>
              (getVal r "product_id").eqKey (getVal l "product_id"))).map
            (fun l => (crows.filter (fun c =>
              (getVal l "category_id").eqKey (getVal c "category_id"))).length)).sum
        else 0)).sum := by
  unfold specMatchedPairs
  rw [List.countP_flatMap]
  congr 1
  apply List.map_congr_left
  intro r _
  rw [Function.comp_apply, List.countP_flatMap]
  have hstep : ∀ l ∈ lrows.filter (fun l =>
      (getVal r "product_id").eqKey (getVal l "product_id")),
      ((List.countP (fun row => getVal row "product_name" == nm)) ∘ (fun l =>
        (crows.filter (fun c =>
          (getVal l "category_id").eqKey (getVal c "category_id"))).map
          (fun c => [("product_name", getVal r "product_name"),
                     ("category_name", getVal c "category_name")]))) l =
      (fun l => if getVal r "product_name" == nm then
        (crows.filter (fun c =>
          (getVal l "category_id").eqKey (getVal c "category_id"))).length
        else 0) l := by
    intro l _
    rw [Function.comp_apply, List.countP_map]
    have hconst : ((fun row => getVal row "product_name" == nm) ∘ (fun c : Row =>
        [("product_name", getVal r "product_name"),
         ("category_name", getVal c "category_name")]))
        = fun _ => (getVal r "product_name" == nm) := by
      funext c
      simp [Function.comp_def, getVal_cons]
    rw [hconst, countP_fun_const]
  rw [List.map_congr_left hstep, sum_map_ite_const]

/-- **C5** (counterexample): the product (1, Pen) has exactly one (distinct)
category link, the row (1, 11) — so the claim demands Pen appear exactly once
in the output.  But category 11 does not exist, the inner join drops it, and
Pen is not an anti-join orphan either: the output is empty and Pen appears
zero times. -/
theorem C5_counterexample_unresolved_link :
    (get_all_products_categories (some categoriesEx) productsPen categoriesEx linksDangling).1 =
      Except.ok ⟨["product_name", "category_name"], []⟩ ∧
    linksDangling.rows.countP (fun l =>
      (getVal [("product_id", Value.vInt 1), ("product_name", Value.vStr "Pen")]
        "product_id").eqKey (getVal l "product_id")) = 1 := by
  decide

/-- **C5** (amended): assume the documented schemas, category ids unique
within the (global) categories relation, a product row `r` whose name no other
product row carries, and at least one link row for `r`.  Then `r`'s name
appears in the output exactly as many times as `r` has link rows whose
`category_id` occurs in the categories relation — i.e. once per *resolvable*
link; links referencing absent categories contribute nothing. -/
theorem C5_linked_product_once_per_resolvable_link (dfp dfc dfpc cats : DataFrame)
    (hp : dfp.cols = ["product_id", "product_name"])
    (hl : dfpc.cols = ["product_id", "category_id"])
    (hc : cats.cols = ["category_id", "category_name"])
    (hcatu : cats.rows.Pairwise (fun c1 c2 =>
      ¬((getVal c1 "category_id").eqKey (getVal c2 "category_id") = true)))
    (r : Row) (hr : r ∈ dfp.rows)
    (hname : dfp.rows.countP
      (fun q => getVal q "product_name" == getVal r "product_name") = 1)
    (hk : dfpc.rows.countP
      (fun l => (getVal r "product_id").eqKey (getVal l "product_id")) ≠ 0) :
    ∃ res : DataFrame,
      (get_all_products_categories (some cats) dfp dfc dfpc).1 = Except.ok res ∧
      res.rows.countP (fun row =>
          getVal row "product_name" == getVal r "product_name") =
        dfpc.rows.countP (fun l =>
          (getVal r "product_id").eqKey (getVal l "product_id") &&
          cats.rows.any (fun c =>
            (getVal l "category_id").eqKey (getVal c "category_id"))) := by
  refine ⟨⟨["product_name", "category_name"],
    specMatchedPairs dfp.rows dfpc.rows cats.rows ++ specOrphans dfp.rows dfpc.rows⟩,
    by rw [get_all_eval dfp dfc dfpc cats hp hl hc], ?_⟩
  show (specMatchedPairs dfp.rows dfpc.rows cats.rows ++
      specOrphans dfp.rows dfpc.rows).countP _ = _
  rw [List.countP_append, countP_specMatchedPairs, countP_specOrphans]
  have hself : (getVal r "product_name" == getVal r "product_name") = true := by simp
  have hanyr : (dfpc.rows.any fun l =>
      (getVal r "product_id").eqKey (getVal l "product_id")) = true := by
    rcases List.countP_pos_iff.mp (Nat.pos_of_ne_zero hk) with ⟨l, hlm, hpl⟩
    exact List.any_eq_true.mpr ⟨l, hlm, hpl⟩
  have huniq := eq_of_countP_eq_one _ _ hname r hr hself
  have hO : dfp.rows.countP (fun a =>
      (getVal a "product_name" == getVal r "product_name") &&
      !(dfpc.rows.any fun l => (getVal a "product_id").eqKey (getVal l "product_id"))) = 0 := by
    apply List.countP_eq_zero.mpr
    intro a ha hpa
    rw [Bool.and_eq_true] at hpa
    rcases hpa with ⟨h1, h2⟩
    rw [huniq a ha h1, hanyr] at h2
    simp at h2
  rw [hO, Nat.add_zero, sum_map_ite_of_countP_one _ _ _ hname r hr hself]
  have hle : ∀ v : Value, cats.rows.countP (fun c => v.eqKey (getVal c "category_id")) ≤ 1 := by
    intro v
    apply countP_le_one_of_pairwise
    refine List.Pairwise.imp ?_ hcatu
    intro a b hR hab
    exact hR (Value.eqKey_right_unique hab.1 hab.2)
  have hstep : ∀ l ∈ dfpc.rows.filter (fun l =>
      (getVal r "product_id").eqKey (getVal l "product_id")),
      (fun l => (cats.rows.filter (fun c =>
        (getVal l "category_id").eqKey (getVal c "category_id"))).length) l =
      (fun l => if cats.rows.any (fun c =>
          (getVal l "category_id").eqKey (getVal c "category_id")) then 1 else 0) l := by
    intro l _
    exact length_filter_of_countP_le_one _ _ (hle (getVal l "category_id"))
  rw [List.map_congr_left hstep, ← countP_eq_sum_map, List.countP_filter]
  apply List.countP_congr
  intro l _
  simp [Bool.and_comm]

/-- Witness for C5: Pen has one link row (1, 10) and category 10 exists, so
Pen appears exactly once per resolvable link. -/
theorem C5_witness :
    ∃ res : DataFrame,
      (get_all_products_categories (some categoriesEx) productsEx categoriesEx linksEx).1 =
        Except.ok res ∧
      res.rows.countP (fun row => getVal row "product_name" ==
          getVal [("product_id", Value.vInt 1), ("product_name", Value.vStr "Pen")]
            "product_name") =
        linksEx.rows.countP (fun l =>
          (getVal [("product_id", Value.vInt 1), ("product_name", Value.vStr "Pen")]
            "product_id").eqKey (getVal l "product_id") &&
          categoriesEx.rows.any (fun c =>
            (getVal l "category_id").eqKey (getVal c "category_id"))) :=
  C5_linked_product_once_per_resolvable_link productsEx categoriesEx linksEx categoriesEx
    rfl rfl rfl (by decide)
    [("product_id", Value.vInt 1), ("product_name", Value.vStr "Pen")]
    (by decide) (by decide) (by decide)

/-- **C6** (confirmed): assume the documented schemas, `product_id` unique
within the products relation, a product row `r` whose name no other product
row carries, and no link row matching `r`'s `product_id`.  Then `r`'s name
appears exactly once in the output, and every output row carrying that name
has a null `category_name`. -/
theorem C6_zero_link_product_appears_once_null (dfp dfc dfpc cats : DataFrame)
    (hp : dfp.cols = ["product_id", "product_name"])
    (hl : dfpc.cols = ["product_id", "category_id"])
    (hc : cats.cols = ["category_id", "category_name"])
    (hidu : dfp.rows.Pairwise (fun a b =>
      ¬((getVal a "product_id").eqKey (getVal b "product_id") = true)))
    (r : Row) (hr : r ∈ dfp.rows)
    (hname : dfp.rows.countP
      (fun q => getVal q "product_name" == getVal r "product_name") = 1)
    (hzero : ∀ l ∈ dfpc.rows,
      (getVal r "product_id").eqKey (getVal l "product_id") = false) :
    ∃ res : DataFrame,
      (get_all_products_categories (some cats) dfp dfc dfpc).1 = Except.ok res ∧
      res.rows.countP (fun row =>
        getVal row "product_name" == getVal r "product_name") = 1 ∧
      ∀ row ∈ res.rows,
        (getVal row "product_name" == getVal r "product_name") = true →
        getVal row "category_name" = Value.vNull := by
  have hself : (getVal r "product_name" == getVal r "product_name") = true := by simp
  have huniq := eq_of_countP_eq_one _ _ hname r hr hself
  have hnolink : (dfpc.rows.any fun l =>
      (getVal r "product_id").eqKey (getVal l "product_id")) = false := by
    apply List.any_eq_false.mpr
    intro l hl2
    simp [hzero l hl2]
  refine ⟨⟨["product_name", "category_name"],
    specMatchedPairs dfp.rows dfpc.rows cats.rows ++ specOrphans dfp.rows dfpc.rows⟩,
    by rw [get_all_eval dfp dfc dfpc cats hp hl hc], ?_, ?_⟩
  · show (specMatchedPairs dfp.rows dfpc.rows cats.rows ++
      specOrphans dfp.rows dfpc.rows).countP _ = 1
    rw [List.countP_append, countP_specMatchedPairs, countP_specOrphans]
    have hM : (dfp.rows.map (fun q =>
        if getVal q "product_name" == getVal r "product_name" then
          ((dfpc.rows.filter (fun l =>
              (getVal q "product_id").eqKey (getVal l "product_id"))).map
            (fun l => (cats.rows.filter (fun c =>
              (getVal l "category_id").eqKey (getVal c "category_id"))).length)).sum
        else 0)).sum = 0 := by
      apply List.sum_eq_zero
      intro x hx
      rcases List.mem_map.mp hx with ⟨q, hq, hxe⟩
      rw [← hxe]
      by_cases hn : (getVal q "product_name" == getVal r "product_name") = true
      · rw [if_pos hn, huniq q hq hn]
        have hfe : dfpc.rows.filter (fun l =>
            (getVal r "product_id").eqKey (getVal l "product_id")) = [] := by
          apply List.filter_eq_nil_iff.mpr
          intro l hl2
          simp [hzero l hl2]
        rw [hfe]
        rfl
      · rw [if_neg hn]
    have hO : dfp.rows.countP (fun a =>
        (getVal a "product_name" == getVal r "product_name") &&
        !(dfpc.rows.any fun l =>
          (getVal a "product_id").eqKey (getVal l "product_id"))) = 1 := by
      have hub : dfp.rows.countP (fun a =>
          (getVal a "product_name" == getVal r "product_name") &&
          !(dfpc.rows.any fun l =>
            (getVal a "product_id").eqKey (getVal l "product_id"))) ≤
          dfp.rows.countP
            (fun q => getVal q "product_name" == getVal r "product_name") :=
        List.countP_mono_left (fun x _ hpx => by
          rw [Bool.and_eq_true] at hpx
          exact hpx.1)
      rw [hname] at hub
      have hlb : 0 < dfp.rows.countP (fun a =>
          (getVal a "product_name" == getVal r "product_name") &&
          !(dfpc.rows.any fun l =>
            (getVal a "product_id").eqKey (getVal l "product_id"))) :=
        List.countP_pos_iff.mpr ⟨r, hr, by
          rw [Bool.and_eq_true]
          exact ⟨hself, by rw [hnolink]; rfl⟩⟩
      omega
    rw [hM, hO]
  · intro row hrow hnrow
    rcases List.mem_append.mp hrow with hrow2 | hrow2
    · exfalso
      unfold specMatchedPairs at hrow2
      rcases List.mem_flatMap.mp hrow2 with ⟨q, hq, hrow3⟩
      rcases List.mem_flatMap.mp hrow3 with ⟨l, hlm, hrow4⟩
      rcases List.mem_map.mp hrow4 with ⟨c, _, hrow5⟩
      rw [← hrow5] at hnrow
      simp only [getVal_cons] at hnrow
      have hqn : (getVal q "product_name" == getVal r "product_name") = true := by
        simpa using hnrow
      rw [huniq q hq hqn] at hlm
      rcases List.mem_filter.mp hlm with ⟨hlmem, hlk⟩
      rw [hzero l hlmem] at hlk
      exact Bool.false_ne_true hlk
    · unfold specOrphans at hrow2
      rcases List.mem_map.mp hrow2 with ⟨q, _, hrow3⟩
      rw [← hrow3]
      simp [getVal_cons]

/-- Witness for C6: Mug has no link rows and appears exactly once, with a
null category. -/
theorem C6_witness :
    ∃ res : DataFrame,
      (get_all_products_categories (some categoriesEx) productsEx categoriesEx linksEx).1 =
        Except.ok res ∧
      res.rows.countP (fun row => getVal row "product_name" ==
        getVal [("product_id", Value.vInt 2), ("product_name", Value.vStr "Mug")]
          "product_name") = 1 ∧
      ∀ row ∈ res.rows,
        (getVal row "product_name" ==
          getVal [("product_id", Value.vInt 2), ("product_name", Value.vStr "Mug")]
            "product_name") = true →
        getVal row "category_name" = Value.vNull :=
  C6_zero_link_product_appears_once_null productsEx categoriesEx linksEx categoriesEx
    rfl rfl rfl (by decide)
    [("product_id", Value.vInt 2), ("product_name", Value.vStr "Mug")]
    (by decide) (by decide) (by decide)
